import Mathlib

/-!
Verification development for the PICS ingestion service
(services/pics-service). The Python source is shallowly embedded: dynamic
values become an inductive `Value`, raised exceptions become `Except PyErr`,
store side effects become explicit outcome environments, and `datetime`
values are carried as their Unix-second integers. Each embedded definition
is named after the source function it translates.
-/

set_option linter.unusedVariables false
set_option linter.unnecessarySeqFocus false

namespace PICS

/-! ## Python string primitives

The embedded code uses a handful of `str` methods. They are modelled on
character lists so that every definition evaluates by kernel reduction.
-/

/-- ASCII lowercasing of one character, as done by `str.lower` on the
ASCII names occurring in the modelled data. -/
def py_lower_char (c : Char) : Char :=
  if 65 ≤ c.toNat && c.toNat ≤ 90 then Char.ofNat (c.toNat + 32) else c

/-- Python `s.lower()`. -/
def py_lower (s : String) : String := String.mk (s.data.map py_lower_char)

/-- Whitespace for `str.strip` (the forms occurring in the data). -/
def py_isspace (c : Char) : Bool := c == ' ' || c == '\t' || c == '\n' || c == '\r'

/-- Python `s.strip()`. -/
def py_strip (s : String) : String :=
  String.mk (((s.data.dropWhile py_isspace).reverse.dropWhile py_isspace).reverse)

/-- Decimal digit value of a character, if it is a digit. -/
def py_digit (c : Char) : Option Nat :=
  if 48 ≤ c.toNat && c.toNat ≤ 57 then Option.some (c.toNat - 48) else Option.none

/-- Accumulating decimal parser over the remaining characters. -/
def py_nat_parse_go : List Char → Nat → Option Nat
  | [], acc => Option.some acc
  | c :: rest, acc =>
    match py_digit c with
    | Option.some d => py_nat_parse_go rest (acc * 10 + d)
    | Option.none => Option.none

/-- Python `int(s)` for strings: strips whitespace, allows one sign,
then requires a non-empty digit run; anything else is a `ValueError`
(modelled as `Option.none`, since every call site catches it). -/
def py_int_parse (s : String) : Option Int :=
  match (py_strip s).data with
  | [] => Option.none
  | '-' :: rest =>
    if rest.isEmpty then Option.none
    else (py_nat_parse_go rest 0).map (fun n => -(n : Int))
  | '+' :: rest =>
    if rest.isEmpty then Option.none
    else (py_nat_parse_go rest 0).map (fun n => (n : Int))
  | cs => (py_nat_parse_go cs 0).map (fun n => (n : Int))

/-- Does the first list start with the second one. -/
def starts_with_chars : List Char → List Char → Bool
  | _, [] => true
  | [], _ :: _ => false
  | c :: cs, p :: ps => c == p && starts_with_chars cs ps

/-- Contiguous-sublist test. -/
def is_sub_chars : List Char → List Char → Bool
  | hay, pat =>
    if starts_with_chars hay pat then true
    else
      match hay with
      | [] => false
      | _ :: rest => is_sub_chars rest pat

/-- Python `needle in hay` for two strings. -/
def py_in_str (needle hay : String) : Bool := is_sub_chars hay.data needle.data

/-- Python `s.endswith(suf)`. -/
def py_endswith (s suf : String) : Bool := starts_with_chars s.data.reverse suf.data.reverse

/-- Python `s.startswith(pre)`. -/
def py_startswith (s pre : String) : Bool := starts_with_chars s.data pre.data

/-- Replace every occurrence of `pat` (non-overlapping, left to right).
The fuel argument only forces termination; one character is consumed per
step, so fuel equal to the list length is always sufficient. -/
def replace_chars_go (pat rep : List Char) : Nat → List Char → List Char
  | 0, l => l
  | _ + 1, [] => []
  | fuel + 1, c :: rest =>
    if starts_with_chars (c :: rest) pat && !pat.isEmpty then
      rep ++ replace_chars_go pat rep fuel ((c :: rest).drop pat.length)
    else
      c :: replace_chars_go pat rep fuel rest

/-- Python `s.replace(pat, rep)` (for the non-empty patterns used here). -/
def py_replace (s pat rep : String) : String :=
  String.mk (replace_chars_go pat.data rep.data s.data.length s.data)

/-- Splitter for `s.split(",")`. -/
def py_split_comma_go : List Char → List Char → List (List Char)
  | [], acc => [acc.reverse]
  | c :: rest, acc =>
    if c == ',' then acc.reverse :: py_split_comma_go rest []
    else py_split_comma_go rest (c :: acc)

/-- Python `s.split(",")`. -/
def py_split_comma (s : String) : List String := (py_split_comma_go s.data []).map String.mk

/-! ## Dynamic values and Python operational primitives -/

/-- A Python value as delivered by the upstream PICS library: VDF-style
records are nested string-keyed mappings whose leaves are strings or
integers, with `None` for absent data. -/
inductive Value where
  | none : Value
  | int (n : Int) : Value
  | str (s : String) : Value
  | dict (entries : List (String × Value)) : Value

/-- First-match key lookup in a mapping. -/
def Value.lookup : List (String × Value) → String → Option Value
  | [], _ => Option.none
  | (k, v) :: rest, key => if k == key then Option.some v else Value.lookup rest key

/-- Key-membership test in a mapping. -/
def Value.hasKey (entries : List (String × Value)) (key : String) : Bool :=
  entries.any (fun p => p.1 == key)

/-- Python truthiness of the modelled values. -/
def Value.truthy : Value → Bool
  | .none => false
  | .int n => n != 0
  | .str s => s != ""
  | .dict entries => !entries.isEmpty

/-- Is the value a mapping (`isinstance(v, dict)`). -/
def Value.isDict : Value → Bool
  | .dict _ => true
  | _ => false

/-- Is the value a string. -/
def Value.isStr : Value → Bool
  | .str _ => true
  | _ => false

/-- Total version of `v.get(key, dflt)`, used to state shape conditions:
on a non-mapping it just yields the default. -/
def Value.getD (v : Value) (key : String) (dflt : Value) : Value :=
  match v with
  | .dict entries => (Value.lookup entries key).getD dflt
  | _ => dflt

/-- Python `v == "lit"`: only an equal string compares equal. -/
def Value.eqStr (v : Value) (lit : String) : Bool :=
  match v with
  | .str t => t == lit
  | _ => false

/-- Python `a or b` on two values. -/
def Value.por (a b : Value) : Value := if a.truthy then a else b

/-- The exception kinds the embedded code can raise. -/
inductive PyErr where
  | attributeError
  | typeError
  | runtimeError (msg : String)
  | dbError
deriving Repr, DecidableEq

/-- Python `v.get(key, dflt)` with its failure behaviour: raises
`AttributeError` unless `v` is a mapping. -/
def dget (v : Value) (key : String) (dflt : Value) : Except PyErr Value :=
  match v with
  | .dict _ => .ok (v.getD key dflt)
  | _ => .error .attributeError

/-- Python `key in v`: key lookup on mappings, substring test on strings,
`TypeError` otherwise. -/
def pyIn (key : String) (v : Value) : Except PyErr Bool :=
  match v with
  | .dict entries => .ok (Value.hasKey entries key)
  | .str s => .ok (py_in_str key s)
  | _ => .error .typeError

/-! ## Extractor data model (extractors/common.py) -/

/-- `SteamDeckCompatibility` dataclass. -/
structure SteamDeckCompatibility where
  category : Int
  test_timestamp : Option Int := Option.none
  tested_build_id : Value := Value.none
  tests : Value := Value.none

/-- `Association` dataclass; the type and name slots hold whatever the raw
record supplied. -/
structure Association where
  type : Value
  name : Value

/-- `ExtractedPICSData` dataclass. Optional datetimes are carried as their
Unix-second integers; fields that can hold arbitrary raw data are `Value`
with `Value.none` standing for Python `None`. -/
structure ExtractedPICSData where
  appid : Nat
  name : Value := Value.none
  type : Value := Value.none
  developer : Value := Value.none
  publisher : Value := Value.none
  associations : List Association := []
  parent_appid : Option Int := Option.none
  dlc_appids : List Int := []
  steam_release_date : Option Int := Option.none
  original_release_date : Option Int := Option.none
  store_asset_mtime : Option Int := Option.none
  release_state : Value := Value.none
  last_update_timestamp : Option Int := Option.none
  review_score : Option Int := Option.none
  review_percentage : Option Int := Option.none
  metacritic_score : Option Int := Option.none
  metacritic_url : Value := Value.none
  store_tags : List Int := []
  genres : List Int := []
  primary_genre : Option Int := Option.none
  categories : List (Int × Bool) := []
  platforms : List String := []
  controller_support : Value := Value.none
  steam_deck : Option SteamDeckCompatibility := Option.none
  has_workshop : Bool := false
  is_free : Bool := false
  content_descriptors : Value := Value.dict []
  languages : Value := Value.dict []
  homepage_url : Value := Value.none
  app_state : Value := Value.none
  current_build_id : Value := Value.none

/-! ## Extractor helpers (PICSExtractor) -/

/-- `PICSExtractor._safe_int`: `int(value)` with `ValueError` and
`TypeError` swallowed; an explicit `None` short-circuits first. -/
def safe_int : Value → Option Int
  | .none => Option.none
  | .int n => Option.some n
  | .str s => py_int_parse s
  | .dict _ => Option.none

/-- `PICSExtractor._parse_timestamp`: falsy values map to `None`, then
`datetime.fromtimestamp(int(value))` with all conversion errors swallowed.
The datetime is modelled by its Unix-second value. -/
def parse_timestamp (v : Value) : Option Int :=
  if !v.truthy then Option.none
  else
    match v with
    | .int n => Option.some n
    | .str s => py_int_parse s
    | _ => Option.none

/-- `PICSExtractor._parse_platforms`: a falsy `oslist` yields the empty
list; a string is split on commas, entries stripped, empties dropped; any
other truthy value raises on `.split` (`AttributeError`). -/
def parse_platforms (v : Value) : Except PyErr (List String) :=
  if !v.truthy then .ok []
  else
    match v with
    | .str s => .ok (((py_split_comma s).map py_strip).filter (fun p => p != ""))
    | _ => .error .attributeError

/-- `PICSExtractor._parse_dlc_list`: like `_parse_platforms`, but each
entry is parsed with `int` and non-integers are silently dropped. -/
def parse_dlc_list (v : Value) : Except PyErr (List Int) :=
  if !v.truthy then .ok []
  else
    match v with
    | .str s => .ok ((py_split_comma s).filterMap py_int_parse)
    | _ => .error .attributeError

/-- `PICSExtractor._extract_tag_ids`: values of a mapping in enumeration
order, keeping only those `int` accepts (`int(None)` is a caught
`TypeError`, so plain `safe_int` gives the same results). -/
def extract_tag_ids (v : Value) : List Int :=
  match v with
  | .dict entries => entries.filterMap (fun p => safe_int p.2)
  | _ => []

/-- `PICSExtractor._extract_categories`: keys shaped `category_<N>` become
`(N, value == "1")`; `int` failures on the key remainder are dropped. The
result mapping is kept in enumeration order. -/
def extract_categories (v : Value) : List (Int × Bool) :=
  match v with
  | .dict entries =>
    entries.filterMap (fun p =>
      if py_startswith p.1 "category_" then
        match py_int_parse (py_replace p.1 "category_" "") with
        | Option.some n => Option.some (n, Value.eqStr p.2 "1")
        | Option.none => Option.none
      else Option.none)
  | _ => []

/-- `PICSExtractor._extract_associations`: entries of a numbered mapping
that are themselves mappings holding both a type and a name. -/
def extract_associations (v : Value) : List Association :=
  match v with
  | .dict entries =>
    entries.filterMap (fun p =>
      match p.2 with
      | .dict aentries =>
        if Value.hasKey aentries "type" && Value.hasKey aentries "name" then
          Option.some
            { type := (Value.lookup aentries "type").getD Value.none,
              name := (Value.lookup aentries "name").getD Value.none }
        else Option.none
      | _ => Option.none)
  | _ => []

/-- `PICSExtractor._extract_steam_deck`: falsy or non-mapping data yields
`None`; the category is `self._safe_int(data.get("category")) or 0`, so the
`or` only replaces a missing, unparsable or zero value with 0. -/
def extract_steam_deck (v : Value) : Option SteamDeckCompatibility :=
  match v with
  | .dict entries =>
    if entries.isEmpty then Option.none
    else
      Option.some
        { category :=
            match safe_int ((Value.lookup entries "category").getD Value.none) with
            | Option.some n => if n == 0 then 0 else n
            | Option.none => 0,
          test_timestamp := safe_int ((Value.lookup entries "test_timestamp").getD Value.none),
          tested_build_id := (Value.lookup entries "tested_build_id").getD Value.none,
          tests := (Value.lookup entries "tests").getD Value.none }
  | _ => Option.none

/-- `PICSExtractor._extract_last_update`: walks
`depots.branches.public.timeupdated`; a `.get` on a non-mapping raises
inside the bare `except`, which returns `None`. -/
def extract_last_update (depots : Value) : Option Int :=
  match depots with
  | .dict entries =>
    match (Value.lookup entries "branches").getD (Value.dict []) with
    | .dict bentries =>
      match (Value.lookup bentries "public").getD (Value.dict []) with
      | .dict pentries => parse_timestamp ((Value.lookup pentries "timeupdated").getD Value.none)
      | _ => Option.none
    | _ => Option.none
  | _ => Option.none

/-- `PICSExtractor._extract_build_id`: same walk, yielding
`depots.branches.public.buildid` verbatim. -/
def extract_build_id (depots : Value) : Value :=
  match depots with
  | .dict entries =>
    match (Value.lookup entries "branches").getD (Value.dict []) with
    | .dict bentries =>
      match (Value.lookup bentries "public").getD (Value.dict []) with
      | .dict pentries => (Value.lookup pentries "buildid").getD Value.none
      | _ => Value.none
    | _ => Value.none
  | _ => Value.none

/-- Lines 93-97 of `PICSExtractor.extract`: unwrap an `appinfo` envelope
when the key is present. `in` raises `TypeError` on non-containers and
`.get` raises `AttributeError` on non-mappings. -/
def unwrapped (raw_data : Value) : Except PyErr Value := do
  let wrapped ← pyIn "appinfo" raw_data
  if wrapped then dget raw_data "appinfo" raw_data else pure raw_data

/-- Python `a or b` where the right operand is a `.get` evaluated only when
the left operand is falsy (short-circuit). -/
def por_get (a m : Value) (key : String) : Except PyErr Value :=
  if a.truthy then pure a else dget m key Value.none

/-- The `has_workshop` expression: `"workshop" in config` short-circuits
the `common.get("workshop_visible") == "1"` comparison. -/
def workshop_flag (config common : Value) : Except PyErr Bool := do
  let inConfig ← pyIn "workshop" config
  if inConfig then pure true
  else do
    let wsv ← dget common "workshop_visible" Value.none
    pure (Value.eqStr wsv "1")

/-- The body of `PICSExtractor.extract` after the envelope and sub-record
bindings, with the constructor arguments evaluated in source order. -/
def extract_fields (appid : Nat) (common extended config depots : Value) :
    Except PyErr ExtractedPICSData := do
  let name ← dget common "name" Value.none
  let ty ← dget common "type" Value.none
  let developer ← do
    let d1 ← dget common "developer" Value.none
    por_get d1 extended "developer"
  let publisher ← do
    let p1 ← dget common "publisher" Value.none
    por_get p1 extended "publisher"
  let assoc ← dget common "associations" (Value.dict [])
  let parent ← dget common "parent" Value.none
  let listofdlc ← dget extended "listofdlc" (Value.str "")
  let dlc ← parse_dlc_list listofdlc
  let srd ← dget common "steam_release_date" Value.none
  let ord ← dget common "original_release_date" Value.none
  let sam ← dget common "store_asset_mtime" Value.none
  let rstate ← dget common "releasestate" Value.none
  let rscore ← dget common "review_score" Value.none
  let rpct ← dget common "review_percentage" Value.none
  let mscore ← dget common "metacritic_score" Value.none
  let murl ← dget common "metacritic_url" Value.none
  let tags ← dget common "store_tags" (Value.dict [])
  let genres_raw ← dget common "genres" (Value.dict [])
  let pgenre ← dget common "primary_genre" Value.none
  let cats ← dget common "category" (Value.dict [])
  let oslist ← dget common "oslist" (Value.str "")
  let plats ← parse_platforms oslist
  let ctrl ← dget common "controller_support" Value.none
  let deck ← dget common "steam_deck_compatibility" (Value.dict [])
  let workshop ← workshop_flag config common
  let isfree ← dget common "isfreeapp" Value.none
  let cdesc ← dget common "content_descriptors" (Value.dict [])
  let langs ← dget common "languages" (Value.dict [])
  let homepage ← do
    let h1 ← dget extended "homepage" Value.none
    por_get h1 extended "developer_url"
  let state ← dget extended "state" Value.none
  pure
    { appid := appid,
      name := name,
      type := ty,
      developer := developer,
      publisher := publisher,
      associations := extract_associations assoc,
      parent_appid := safe_int parent,
      dlc_appids := dlc,
      steam_release_date := parse_timestamp srd,
      original_release_date := parse_timestamp ord,
      store_asset_mtime := parse_timestamp sam,
      release_state := rstate,
      last_update_timestamp := extract_last_update depots,
      review_score := safe_int rscore,
      review_percentage := safe_int rpct,
      metacritic_score := safe_int mscore,
      metacritic_url := murl,
      store_tags := extract_tag_ids tags,
      genres := extract_tag_ids genres_raw,
      primary_genre := safe_int pgenre,
      categories := extract_categories cats,
      platforms := plats,
      controller_support := ctrl,
      steam_deck := extract_steam_deck deck,
      has_workshop := workshop,
      is_free := Value.eqStr isfree "1",
      content_descriptors := cdesc,
      languages := langs,
      homepage_url := homepage,
      app_state := state,
      current_build_id := extract_build_id depots }

/-- `PICSExtractor.extract` with the Python exception behaviour explicit.
Note the source guards only `common` with `isinstance(appinfo, dict)`; the
`extended`, `config` and `depots` reads on lines 108-110 are unguarded. -/
def extract (appid : Nat) (raw_data : Value) : Except PyErr ExtractedPICSData := do
  let appinfo ← unwrapped raw_data
  let common := if appinfo.isDict then appinfo.getD "common" (Value.dict []) else Value.dict []
  let extended ← dget appinfo "extended" (Value.dict [])
  let config ← dget appinfo "config" (Value.dict [])
  let depots ← dget appinfo "depots" (Value.dict [])
  extract_fields appid common extended config depots

end PICS

namespace PICS

/-! ## Persister (database/operations.py) -/

/-- The enumerated-types table of `PICSDatabase._map_app_type`; the mapping
is the identity on the twelve known names, with default `"game"`. -/
def type_table_get (s : String) : String :=
  if s == "game" || s == "dlc" || s == "demo" || s == "mod" || s == "video" ||
     s == "tool" || s == "application" || s == "hardware" || s == "music" ||
     s == "episode" || s == "series" || s == "advertising"
  then s else "game"

/-- `PICSDatabase._map_app_type`: falsy input maps to `"game"`; a string is
lowercased and looked up; `.lower()` on a truthy non-string raises. -/
def map_app_type (pics_type : Value) : Except PyErr String :=
  if !pics_type.truthy then .ok "game"
  else
    match pics_type with
    | .str s => .ok (type_table_get (py_lower s))
    | _ => .error .attributeError

/-- Demo name patterns of `PICSDatabase._infer_type`. -/
def demo_pattern (nl : String) : Bool :=
  py_in_str " demo" nl || py_endswith nl " demo" || py_in_str "(demo)" nl || py_in_str "[demo]" nl

/-- Demo exclusions of `PICSDatabase._infer_type`. -/
def demo_exclusion (nl : String) : Bool :=
  py_in_str "demon" nl || py_in_str "democracy" nl || py_in_str "demolition" nl

/-- Music name patterns. -/
def music_pattern (nl : String) : Bool :=
  py_in_str "soundtrack" nl || py_in_str " ost" nl || py_in_str "original score" nl ||
  py_in_str "music pack" nl

/-- Tool name patterns. -/
def tool_pattern (nl : String) : Bool :=
  py_in_str " sdk" nl || py_in_str "dedicated server" nl || py_in_str "level editor" nl ||
  py_in_str "modding tool" nl

/-- Video name patterns. -/
def video_pattern (nl : String) : Bool :=
  py_in_str "trailer" nl || py_in_str "- video" nl || py_in_str "making of" nl ||
  py_in_str "behind the scenes" nl

/-- The name-based chain of `PICSDatabase._infer_type`; an excluded demo
match falls through to the later patterns. -/
def infer_from_name (nl : String) : String :=
  if demo_pattern nl && !demo_exclusion nl then "demo"
  else if music_pattern nl then "music"
  else if tool_pattern nl then "tool"
  else if video_pattern nl then "video"
  else "game"

/-- `PICSDatabase._infer_type`: uses `app.name.lower()` when the name is
truthy (raising on a truthy non-string), else defaults to `"game"`. -/
def infer_type (app : ExtractedPICSData) : Except PyErr String :=
  if app.name.truthy then
    match app.name with
    | .str s => .ok (infer_from_name (py_lower s))
    | _ => .error .attributeError
  else .ok "game"

/-- `app_type = app.type if app.type else self._infer_type(app)` followed by
`self._map_app_type(app_type)`. -/
def build_type (app : ExtractedPICSData) : Except PyErr String :=
  if app.type.truthy then map_app_type app.type
  else do
    let inferred ← infer_type app
    map_app_type (Value.str inferred)

/-- One upsert payload row of `PICSDatabase._build_app_record`. For the
conditionally included columns (`name`, `is_free`, `release_date`,
`is_released`) the outer `Option` records whether the column is present in
the payload at all; for the always-present nullable columns the `Option` is
the SQL null. -/
structure AppRecord where
  appid : Nat
  name : Option Value
  type : String
  pics_review_score : Option Int
  pics_review_percentage : Option Int
  controller_support : Value
  metacritic_score : Option Int
  metacritic_url : Value
  platforms : Option String
  release_state : Value
  homepage_url : Value
  app_state : Value
  last_content_update : Option Int
  store_asset_mtime : Option Int
  current_build_id : Value
  content_descriptors : Option Value
  languages : Option Value
  has_workshop : Bool
  is_free : Option Bool
  release_date : Option Int
  is_released : Option Bool
  updated_at : Nat

/-- `PICSDatabase._build_app_record`: any exception while building (only
the `.lower()` calls in the type computation can raise here) is swallowed
and yields `None`. The date payloads keep their Unix-second value. -/
def build_app_record (now : Nat) (app : ExtractedPICSData)
    (has_storefront_date has_storefront_sync : Bool) : Option AppRecord :=
  match build_type app with
  | .error _ => Option.none
  | .ok mapped_type =>
    Option.some
      { appid := app.appid,
        name := if app.name.truthy then Option.some app.name else Option.none,
        type := mapped_type,
        pics_review_score := app.review_score,
        pics_review_percentage := app.review_percentage,
        controller_support := app.controller_support,
        metacritic_score := app.metacritic_score,
        metacritic_url := app.metacritic_url,
        platforms :=
          if !app.platforms.isEmpty then Option.some (String.intercalate "," app.platforms)
          else Option.none,
        release_state := app.release_state,
        homepage_url := app.homepage_url,
        app_state := app.app_state,
        last_content_update := app.last_update_timestamp,
        store_asset_mtime := app.store_asset_mtime,
        current_build_id := app.current_build_id,
        content_descriptors :=
          if app.content_descriptors.truthy then Option.some app.content_descriptors
          else Option.none,
        languages := if app.languages.truthy then Option.some app.languages else Option.none,
        has_workshop := app.has_workshop,
        is_free := if !has_storefront_sync then Option.some app.is_free else Option.none,
        release_date :=
          if app.steam_release_date.isSome && !has_storefront_date then app.steam_release_date
          else Option.none,
        is_released :=
          if !has_storefront_sync then Option.some (Value.eqStr app.release_state "released")
          else Option.none,
        updated_at := now }

/-- A stored `apps` row, restricted to the columns the upsert payload can
touch. `Option` on nullable columns is the SQL null. -/
structure AppsRow where
  name : Value
  type : String
  pics_review_score : Option Int
  pics_review_percentage : Option Int
  controller_support : Value
  metacritic_score : Option Int
  metacritic_url : Value
  platforms : Option String
  release_state : Value
  homepage_url : Value
  app_state : Value
  last_content_update : Option Int
  store_asset_mtime : Option Int
  current_build_id : Value
  content_descriptors : Option Value
  languages : Option Value
  has_workshop : Bool
  is_free : Option Bool
  release_date : Option Int
  is_released : Option Bool
  updated_at : Nat

/-- Applying one upsert payload to a stored row (conflict target `appid`):
a column present in the payload is overwritten, an omitted column keeps its
stored value. -/
def applyRecord (row : AppsRow) (r : AppRecord) : AppsRow :=
  { name := (r.name).getD row.name,
    type := r.type,
    pics_review_score := r.pics_review_score,
    pics_review_percentage := r.pics_review_percentage,
    controller_support := r.controller_support,
    metacritic_score := r.metacritic_score,
    metacritic_url := r.metacritic_url,
    platforms := r.platforms,
    release_state := r.release_state,
    homepage_url := r.homepage_url,
    app_state := r.app_state,
    last_content_update := r.last_content_update,
    store_asset_mtime := r.store_asset_mtime,
    current_build_id := r.current_build_id,
    content_descriptors := r.content_descriptors,
    languages := r.languages,
    has_workshop := r.has_workshop,
    is_free :=
      match r.is_free with
      | Option.some b => Option.some b
      | Option.none => row.is_free,
    release_date :=
      match r.release_date with
      | Option.some d => Option.some d
      | Option.none => row.release_date,
    is_released :=
      match r.is_released with
      | Option.some b => Option.some b
      | Option.none => row.is_released,
    updated_at := r.updated_at }

/-! ## Relation sync (PICSDatabase._sync_relationships and helpers)

Store calls are modelled by an injected outcome environment saying which
calls raise; one flag per app and sub-step family, since each helper wraps
all its calls in a single try block.
-/

/-- Which store calls raise, per appid, plus the store state the batch
upsert reads. -/
structure DbEnv where
  existing : List Nat
  storefront_dates : List Nat
  storefront_sync : List Nat
  chunk_fails : Nat → Bool
  deck_fails : Nat → Bool
  categories_fails : Nat → Bool
  genres_fails : Nat → Bool
  tags_fails : Nat → Bool
  franchise_fails : Nat → Bool
  dlc_fails : Nat → Bool

/-- A store call with an injected outcome. -/
def db_call (fails : Bool) : Except PyErr Unit :=
  if fails then .error .dbError else .ok ()

/-- `PICSDatabase._upsert_steam_deck`: the upsert may raise; the local
except swallows it (log only). The persisted category string comes from
`category_map.get(deck.category, "unknown")`. -/
def upsert_steam_deck (env : DbEnv) (appid : Nat) (deck : SteamDeckCompatibility) :
    Except PyErr Unit :=
  match db_call (env.deck_fails appid) with
  | .ok u => .ok u
  | .error _ => .ok ()

/-- The `category_map.get(deck.category, "unknown")` lookup used by
`_upsert_steam_deck` when persisting `app_steam_deck.category`. -/
def steam_deck_category_map (category : Int) : String :=
  if category == 0 then "unknown"
  else if category == 1 then "unsupported"
  else if category == 2 then "playable"
  else if category == 3 then "verified"
  else "unknown"

/-- `PICSDatabase._sync_categories`: delete, then upsert the lookup rows
and insert the per-app rows for enabled ids; the whole body is inside one
try whose except swallows the error. -/
def sync_categories (env : DbEnv) (appid : Nat) (categories : List (Int × Bool)) :
    Except PyErr Unit :=
  match
    (do
      db_call (env.categories_fails appid)
      let enabled_cat_ids := (categories.filter (fun p => p.2)).map (fun p => p.1)
      if enabled_cat_ids.isEmpty then pure ()
      else do
        db_call (env.categories_fails appid)
        db_call (env.categories_fails appid) : Except PyErr Unit)
  with
  | .ok u => .ok u
  | .error _ => .ok ()

/-- `PICSDatabase._sync_genres`: same shape; the inserted rows carry
`is_primary = (genre_id == primary_genre)`. -/
def sync_genres (env : DbEnv) (appid : Nat) (genres : List Int) (primary_genre : Option Int) :
    Except PyErr Unit :=
  match
    (do
      db_call (env.genres_fails appid)
      if genres.isEmpty then pure ()
      else do
        let _records := genres.map (fun g => (appid, g, Option.some g == primary_genre))
        db_call (env.genres_fails appid)
        db_call (env.genres_fails appid) : Except PyErr Unit)
  with
  | .ok u => .ok u
  | .error _ => .ok ()

/-- `PICSDatabase._sync_store_tags`: same shape; the inserted rows carry
`rank` equal to the 0-based position in the extracted tag sequence. -/
def sync_store_tags (env : DbEnv) (appid : Nat) (tag_ids : List Int) : Except PyErr Unit :=
  match
    (do
      db_call (env.tags_fails appid)
      if tag_ids.isEmpty then pure ()
      else do
        let _records := tag_ids.enum.map (fun p => (appid, p.2, p.1))
        db_call (env.tags_fails appid)
        db_call (env.tags_fails appid) : Except PyErr Unit)
  with
  | .ok u => .ok u
  | .error _ => .ok ()

/-- `PICSDatabase._upsert_franchise_link`: rpc plus link upsert inside one
try whose except swallows the error. -/
def upsert_franchise_link (env : DbEnv) (appid : Nat) (franchise_name : Value) :
    Except PyErr Unit :=
  match db_call (env.franchise_fails appid) with
  | .ok u => .ok u
  | .error _ => .ok ()

/-- The `for franchise in franchises` loop of `_sync_relationships`. -/
def franchise_loop (env : DbEnv) (appid : Nat) : List Value → Except PyErr Unit
  | [] => .ok ()
  | f :: rest => do
    upsert_franchise_link env appid f
    franchise_loop env appid rest

/-- `PICSDatabase._sync_dlc_relationships`: early return on an empty list,
then one guarded upsert whose except swallows the error. -/
def sync_dlc_relationships (env : DbEnv) (parent_appid : Nat) (dlc_appids : List Int) :
    Except PyErr Unit :=
  if dlc_appids.isEmpty then .ok ()
  else
    match db_call (env.dlc_fails parent_appid) with
    | .ok u => .ok u
    | .error _ => .ok ()

/-- The per-app body of the loop in `PICSDatabase._sync_relationships`
(the part inside the outer per-app try). -/
def sync_app_relationships (env : DbEnv) (app : ExtractedPICSData) : Except PyErr Unit := do
  (match app.steam_deck with
   | Option.some deck => upsert_steam_deck env app.appid deck
   | Option.none => pure ())
  (if !app.categories.isEmpty then sync_categories env app.appid app.categories else pure ())
  (if !app.genres.isEmpty then sync_genres env app.appid app.genres app.primary_genre else pure ())
  (if !app.store_tags.isEmpty then sync_store_tags env app.appid app.store_tags else pure ())
  franchise_loop env app.appid
    ((app.associations.filter (fun a => Value.eqStr a.type "franchise")).map (fun a => a.name))
  (if !app.dlc_appids.isEmpty then sync_dlc_relationships env app.appid app.dlc_appids
   else pure ())

/-- One turn of the loop in `PICSDatabase._sync_relationships`: an app is
skipped when not in `successful_appids`; an exception escaping the per-app
body skips the append to `processed_appids`. -/
def sync_relationships_step (env : DbEnv) (successful_appids : List Nat)
    (processed : List Nat) (app : ExtractedPICSData) : List Nat :=
  if !(successful_appids.contains app.appid) then processed
  else
    match sync_app_relationships env app with
    | .ok _ => processed ++ [app.appid]
    | .error _ => processed

/-- `PICSDatabase._sync_relationships`: returns `processed_appids`, the
appids whose `sync_status.last_pics_sync` is then batch-bumped. -/
def sync_relationships (env : DbEnv) (apps : List ExtractedPICSData)
    (successful_appids : List Nat) : List Nat :=
  apps.foldl (sync_relationships_step env successful_appids) []

/-- Result counters of `PICSDatabase.upsert_apps_batch` plus the internal
`successful_appids` and the bumped (`processed_appids`) list. -/
structure UpsertOutcome where
  created : Nat
  updated : Nat
  failed : Nat
  skipped : Nat
  build_failures : Nat
  successful_appids : List Nat
  bumped : List Nat
deriving Repr, DecidableEq

/-- `UPSERT_BATCH_SIZE` constant. -/
def UPSERT_BATCH_SIZE : Nat := 500

/-- The `range(0, len, size)` chunking of the upsert loop: chunk index
paired with the chunk. Fuel is the list length, sufficient since every
step consumes at least one element. -/
def chunk_go (size : Nat) : Nat → Nat → List α → List (Nat × List α)
  | 0, _, _ => []
  | _ + 1, _, [] => []
  | fuel + 1, i, l => (i, l.take size) :: chunk_go size fuel (i + 1) (l.drop size)

/-- Chunks of `size` with their loop index. -/
def chunk_list (size : Nat) (l : List α) : List (Nat × List α) :=
  chunk_go size l.length 0 l

/-- `PICSDatabase.upsert_apps_batch`: existence filter, source-authority
probes, record build, chunked upsert tracking `successful_appids`, then
relation sync and the batch `sync_status` bump. -/
def upsert_apps_batch (env : DbEnv) (now : Nat) (apps : List ExtractedPICSData) :
    UpsertOutcome :=
  if apps.isEmpty then
    { created := 0, updated := 0, failed := 0, skipped := 0, build_failures := 0,
      successful_appids := [], bumped := [] }
  else
    let all_appids := apps.map (fun a => a.appid)
    let existing_appids := all_appids.filter (fun a => env.existing.contains a)
    let apps_to_process := apps.filter (fun a => existing_appids.contains a.appid)
    let skipped := (apps.filter (fun a => !existing_appids.contains a.appid)).length
    if apps_to_process.isEmpty then
      { created := 0, updated := 0, failed := 0, skipped := skipped, build_failures := 0,
        successful_appids := [], bumped := [] }
    else
      let records := apps_to_process.filterMap (fun a =>
        (build_app_record now a (env.storefront_dates.contains a.appid)
            (env.storefront_sync.contains a.appid)).map (fun r => (a, r)))
      let build_failures := apps_to_process.length - records.length
      let fold := (chunk_list UPSERT_BATCH_SIZE records).foldl
        (fun (acc : Nat × Nat × List Nat) chunk =>
          if env.chunk_fails chunk.1 then (acc.1, acc.2.1 + chunk.2.length, acc.2.2)
          else (acc.1 + chunk.2.length, acc.2.1, acc.2.2 ++ chunk.2.map (fun p => p.1.appid)))
        (0, 0, [])
      let successful_appids := fold.2.2
      let successful_apps := successful_appids.filterMap (fun a =>
        (records.find? (fun p => p.1.appid == a)).map (fun p => p.1))
      let bumped := sync_relationships env successful_apps successful_appids
      { created := 0, updated := fold.1, failed := fold.2.1, skipped := skipped,
        build_failures := build_failures, successful_appids := successful_appids,
        bumped := bumped }

end PICS

namespace PICS

/-! ## Batch fetcher (steam/pics.py) -/

/-- One entry of the upstream `get_changes_since` response. -/
structure ChangeEntry where
  appid : Nat
deriving Repr, DecidableEq

/-- The upstream `get_changes_since` response object. -/
structure ChangesResponse where
  current_change_number : Nat
  app_changes : List ChangeEntry
deriving Repr, DecidableEq

/-- The `PICSChange` dataclass. -/
structure PICSChange where
  change_number : Nat
  app_changes : List Nat
  package_changes : List Nat
deriving Repr, DecidableEq

/-- `PICSFetcher.get_changes_since`: raises `RuntimeError` when the session
is not connected; otherwise an upstream error is caught and mapped to
`None`, a `None` response is returned as `None`, and a response is repacked
into a `PICSChange`. -/
def get_changes_since (is_connected : Bool)
    (upstream : Except Unit (Option ChangesResponse)) : Except PyErr (Option PICSChange) :=
  if !is_connected then .error (.runtimeError "Not connected to Steam")
  else
    match upstream with
    | .ok Option.none => .ok Option.none
    | .ok (Option.some r) =>
      .ok (Option.some
        { change_number := r.current_change_number,
          app_changes := r.app_changes.map (fun c => c.appid),
          package_changes := [] })
    | .error _ => .ok Option.none

/-- The observable state one `fetch_apps_batch` attempt runs against:
connection state before the attempt, the reconnect outcome were it needed,
and the upstream call outcome (`Option.none` = a `None` response; the map
is the `apps` payload of the response). -/
structure AttemptEnv where
  is_connected : Bool
  reconnect_ok : Bool
  upstream : Except Unit (Option (List (Nat × Value)))

/-- Result of `PICSFetcher.fetch_apps_batch`, with the backoff sleeps it
performed. `fellThrough` is the implicit `None` of an exhausted `for` loop
(unreachable for a positive retry count). -/
inductive FetchResult where
  | okMap (apps : List (Nat × Value)) (delays : List Nat)
  | reconnectFailed (delays : List Nat)
  | raised (delays : List Nat)
  | fellThrough (delays : List Nat)

/-- The retry loop of `PICSFetcher.fetch_apps_batch`. The fuel argument is
the number of loop iterations left (`max_retries - attempt`). -/
def fetch_go (env : Nat → AttemptEnv) (max_retries : Nat) : Nat → Nat → List Nat → FetchResult
  | 0, _, delays => .fellThrough delays
  | fuel + 1, attempt, delays =>
    let e := env attempt
    if !e.is_connected && !e.reconnect_ok then .reconnectFailed delays
    else
      match e.upstream with
      | .ok Option.none => .okMap [] delays
      | .ok (Option.some apps) => .okMap apps delays
      | .error _ =>
        if attempt < max_retries - 1 then
          fetch_go env max_retries fuel (attempt + 1) (delays ++ [2 ^ (attempt + 1)])
        else .raised delays

/-- `PICSFetcher.fetch_apps_batch`. -/
def fetch_apps_batch (env : Nat → AttemptEnv) (max_retries : Nat) : FetchResult :=
  fetch_go env max_retries max_retries 0 []

/-! ## Session reconnect (steam/client.py) -/

/-- Result of `PICSSteamClient.reconnect` observed against a finite list of
connect outcomes: `connected`/`gaveUp` are the returns of the source loop;
`running` means the observed outcomes were exhausted with the loop still
going. Both counters and the performed backoff sleeps are recorded. -/
inductive ReconnectOutcome where
  | connected (attempts_made : Nat) (delays : List Nat)
  | gaveUp (attempts_made : Nat) (delays : List Nat)
  | running (attempts_made : Nat) (delays : List Nat)
deriving Repr, DecidableEq

/-- The while loop of `PICSSteamClient.reconnect`, driven by one Bool per
attempted `connect()`. The loop guard, the `attempt += 1`, the backoff
`min(base * 2 ** (attempt - 1), max)` with base 5 and max 300, and the
counter reset on `attempt % 10 == 0` follow the source lines 89-114. -/
def reconnect_loop (max_attempts : Nat) : Nat → Nat → List Nat → List Bool → ReconnectOutcome
  | attempt, made, delays, [] =>
    if max_attempts == 0 || attempt < max_attempts then .running made delays
    else .gaveUp made delays
  | attempt, made, delays, outcome :: rest =>
    if max_attempts == 0 || attempt < max_attempts then
      let attempt1 := attempt + 1
      let delay := min (5 * 2 ^ (attempt1 - 1)) 300
      if outcome then .connected (made + 1) (delays ++ [delay])
      else
        let attempt2 := if attempt1 % 10 == 0 then 0 else attempt1
        reconnect_loop max_attempts attempt2 (made + 1) (delays ++ [delay]) rest
    else .gaveUp made delays

/-- `PICSSteamClient.reconnect` entered with a fresh attempt counter (the
`_reconnecting` guard path, which returns False without looping, is not
part of the claims and is not modelled). -/
def reconnect (max_attempts : Nat) (outcomes : List Bool) : ReconnectOutcome :=
  reconnect_loop max_attempts 0 0 [] outcomes

/-! ## Change monitor (workers/change_monitor.py) and sync-state cursor -/

/-- `PICSDatabase.get_last_change_number`: the read result is either a
raised exception (transport failure, or `.single()` on an absent row), no
data, or a row whose field may itself be missing. Every failure path
returns 0. -/
def get_last_change_number (read : Except Unit (Option (Option Nat))) : Nat :=
  match read with
  | .error _ => 0
  | .ok Option.none => 0
  | .ok (Option.some field) => field.getD 0

/-- What the singleton-row read returns for a given store state: a
successful transport finds the stored value or raises on an absent row
(`.single()`); a failed transport raises. -/
def store_read (read_ok : Bool) (store : Option Nat) : Except Unit (Option (Option Nat)) :=
  if read_ok then
    match store with
    | Option.some v => .ok (Option.some (Option.some v))
    | Option.none => .error ()
  else .error ()

/-- In-memory and persisted state of the change monitor: the loop cursor
`last_change`, the bounded queue, the `processing` set (as a list), and the
`pics_sync_state.last_change_number` cell (`Option.none` = row absent). -/
structure MonitorState where
  last_change : Nat
  queue : List Nat
  processing : List Nat
  store : Option Nat
deriving Repr, DecidableEq

/-- The guarded push of the enqueue loops: append only while the queue is
below `max_queue_size` (a full queue silently drops the arrival). -/
def foldPush (max_queue_size : Nat) (queue : List Nat) (apps : List Nat) : List Nat :=
  apps.foldl (fun q a => if q.length < max_queue_size then q ++ [a] else q) queue

/-- Lines 64-73 of `ChangeMonitorWorker.run`: filter the changed appids
against the `processing` set, then push each under the capacity guard. -/
def enqueueChanges (max_queue_size : Nat) (processing queue app_changes : List Nat) : List Nat :=
  foldPush max_queue_size queue (app_changes.filter (fun a => !processing.contains a))

/-- Lines 151-154 of `ChangeMonitorWorker._process_queue`: re-enqueue a
failed batch under the same capacity guard (no `processing` filter). -/
def requeueBatch (max_queue_size : Nat) (queue batch : List Nat) : List Nat :=
  foldPush max_queue_size queue batch

/-- Set-like add used for `self._processing_set.add(appid)`. -/
def set_add_all (s xs : List Nat) : List Nat :=
  xs.foldl (fun acc a => if acc.contains a then acc else acc ++ [a]) s

/-- Set-like discard used for `self._processing_set.discard(appid)`. -/
def set_discard (s xs : List Nat) : List Nat := s.filter (fun a => !xs.contains a)

/-- `ChangeMonitorWorker._process_queue`: drain up to `process_batch_size`
appids into a batch (each added to `processing`); on a whole-batch failure
re-enqueue at the tail capacity permitting; the finally block discards the
batch from `processing`. -/
def process_queue (max_queue_size process_batch_size : Nat) (process_ok : Bool)
    (st : MonitorState) : MonitorState :=
  if st.queue.isEmpty then st
  else
    let batch := st.queue.take process_batch_size
    let rest := st.queue.drop process_batch_size
    if batch.isEmpty then st
    else
      let processing1 := set_add_all st.processing batch
      if process_ok then
        { st with queue := rest, processing := set_discard processing1 batch }
      else
        { st with
          queue := requeueBatch max_queue_size rest batch,
          processing := set_discard processing1 batch }

/-- Lines 63-82 of `ChangeMonitorWorker.run`: the enqueue-and-advance phase
of one iteration. Work is queued and the cursor rewritten only when a delta
arrived and its change number strictly exceeds the current cursor; the
persisting upsert may itself fail (`write_ok`), which is caught. -/
def change_phase (max_queue_size : Nat) (delta : Option PICSChange) (write_ok : Bool)
    (st : MonitorState) : MonitorState :=
  match delta with
  | Option.some c =>
    if st.last_change < c.change_number then
      { st with
        queue := enqueueChanges max_queue_size st.processing st.queue c.app_changes,
        last_change := c.change_number,
        store := if write_ok then Option.some c.change_number else st.store }
    else st
  | Option.none => st

/-- The outcomes one monitor iteration runs against: the
`get_changes_since` result (an error is the exception path of the loop
body), the `set_last_change_number` outcome, and the `_process_queue` batch
outcome. -/
structure IterEnv where
  fetch : Except PyErr (Option PICSChange)
  write_ok : Bool
  process_ok : Bool

/-- One iteration of the main loop of `ChangeMonitorWorker.run`: a thrown
error is caught (reconnect and sleep only); otherwise the enqueue-and-
advance phase runs, then `_process_queue`. -/
def monitor_iteration (max_queue_size process_batch_size : Nat) (env : IterEnv)
    (st : MonitorState) : MonitorState :=
  match env.fetch with
  | .error _ => st
  | .ok delta =>
    process_queue max_queue_size process_batch_size env.process_ok
      (change_phase max_queue_size delta env.write_ok st)

/-- A trace event: a loop iteration, or a process restart (which rereads
the persisted cursor, with the given transport outcome, and starts with
empty queue and processing set). -/
inductive MonitorEvent where
  | iteration (fetch : Except PyErr (Option PICSChange)) (write_ok process_ok : Bool)
  | restart (read_ok : Bool)

/-- Step a trace event. A restart models lines 53-55 of
`ChangeMonitorWorker.run`: `last_change = self._db.get_last_change_number()`
over the persisted store. -/
def monitor_event_step (max_queue_size process_batch_size : Nat) (st : MonitorState) :
    MonitorEvent → MonitorState
  | .iteration fetch write_ok process_ok =>
    monitor_iteration max_queue_size process_batch_size
      { fetch := fetch, write_ok := write_ok, process_ok := process_ok } st
  | .restart read_ok =>
    { last_change := get_last_change_number (store_read read_ok st.store),
      queue := [], processing := [], store := st.store }

/-- A whole trace of iterations and restarts. -/
def monitor_run (max_queue_size process_batch_size : Nat) (st : MonitorState)
    (events : List MonitorEvent) : MonitorState :=
  events.foldl (monitor_event_step max_queue_size process_batch_size) st

/-- Does the event resume from the persisted cursor (restarts with a failed
read fall back to cursor 0 instead). -/
def event_reads_ok : MonitorEvent → Bool
  | .iteration _ _ _ => true
  | .restart read_ok => read_ok

/-- The monitor invariant tying the persisted cursor to the in-memory one:
whatever is persisted was some earlier in-memory cursor value. -/
def MonitorInv (st : MonitorState) : Prop :=
  ∀ v, st.store = Option.some v → v ≤ st.last_change

end PICS

namespace PICS

/-! ## Shape conditions for the extractor, and concrete sample inputs -/

/-- Total companion of `unwrapped`: the value the appinfo envelope unwraps
to, used to state shape conditions. -/
def unwrap_value (raw_data : Value) : Value :=
  match raw_data with
  | .dict entries =>
    if Value.hasKey entries "appinfo" then (Value.lookup entries "appinfo").getD raw_data
    else raw_data
  | _ => raw_data

/-- The `common` sub-record the extractor will use (guarded by
`isinstance(appinfo, dict)` in the source). -/
def common_of (raw_data : Value) : Value :=
  if (unwrap_value raw_data).isDict then (unwrap_value raw_data).getD "common" (Value.dict [])
  else Value.dict []

/-- The `extended` sub-record the extractor will use. -/
def extended_of (raw_data : Value) : Value :=
  (unwrap_value raw_data).getD "extended" (Value.dict [])

/-- The `config` sub-record the extractor will use. -/
def config_of (raw_data : Value) : Value :=
  (unwrap_value raw_data).getD "config" (Value.dict [])

/-- Can `.split(",")` be applied where the source would apply it: the value
is either falsy (early-returned) or a string. -/
def splittable (v : Value) : Bool := !v.truthy || v.isStr

/-- Sufficient well-shapedness of a raw record for the extractor: the
record and its unwrapped envelope are mappings, the common and extended
sub-records are mappings, config supports the `in` operator, and the two
comma-separated list fields are strings when truthy. -/
def wellShaped (raw_data : Value) : Bool :=
  raw_data.isDict && (unwrap_value raw_data).isDict && (common_of raw_data).isDict &&
  (extended_of raw_data).isDict &&
  ((config_of raw_data).isDict || (config_of raw_data).isStr) &&
  splittable ((common_of raw_data).getD "oslist" (Value.str "")) &&
  splittable ((extended_of raw_data).getD "listofdlc" (Value.str ""))

/-- A raw record whose steam-deck category is the out-of-range value 7. -/
def deck_raw_7 : Value :=
  Value.dict [("common", Value.dict
    [("steam_deck_compatibility", Value.dict [("category", Value.str "7")])])]

/-- Store environment where every call succeeds except the category
sub-step calls for app 730. -/
def cat_fail_env : DbEnv :=
  { existing := [730], storefront_dates := [], storefront_sync := [],
    chunk_fails := fun _ => false, deck_fails := fun _ => false,
    categories_fails := fun a => a == 730, genres_fails := fun _ => false,
    tags_fails := fun _ => false, franchise_fails := fun _ => false,
    dlc_fails := fun _ => false }

/-- An extracted app with one enabled category. -/
def cat_fail_app : ExtractedPICSData :=
  { appid := 730, name := Value.str "Counter-Strike 2", type := Value.str "game",
    categories := [(2, true)] }

/-- The record `_build_app_record` produces for the all-defaults app 730
under full storefront authority, at time 0. -/
def sample_rec : AppRecord :=
  { appid := 730, name := Option.none, type := "game",
    pics_review_score := Option.none, pics_review_percentage := Option.none,
    controller_support := Value.none, metacritic_score := Option.none,
    metacritic_url := Value.none, platforms := Option.none,
    release_state := Value.none, homepage_url := Value.none, app_state := Value.none,
    last_content_update := Option.none, store_asset_mtime := Option.none,
    current_build_id := Value.none, content_descriptors := Option.none,
    languages := Option.none, has_workshop := false, is_free := Option.none,
    release_date := Option.none, is_released := Option.none, updated_at := 0 }

/-- A stored row with storefront-owned values in the authoritative
columns. -/
def sample_row : AppsRow :=
  { name := Value.str "Counter-Strike 2", type := "game",
    pics_review_score := Option.none, pics_review_percentage := Option.none,
    controller_support := Value.none, metacritic_score := Option.none,
    metacritic_url := Value.none, platforms := Option.none,
    release_state := Value.none, homepage_url := Value.none, app_state := Value.none,
    last_content_update := Option.none, store_asset_mtime := Option.none,
    current_build_id := Value.none, content_descriptors := Option.none,
    languages := Option.none, has_workshop := false, is_free := Option.some false,
    release_date := Option.some 1695772800, is_released := Option.some true,
    updated_at := 5 }

/-- Attempt environment that is disconnected with failing reconnects. -/
def envA : Nat → AttemptEnv :=
  fun _ => { is_connected := false, reconnect_ok := false, upstream := .ok Option.none }

/-- Attempt environment that is connected and gets a `None` response. -/
def envB : Nat → AttemptEnv :=
  fun _ => { is_connected := true, reconnect_ok := true, upstream := .ok Option.none }

/-- Attempt environment where every upstream call raises. -/
def envC : Nat → AttemptEnv :=
  fun _ => { is_connected := true, reconnect_ok := true, upstream := .error () }

/-- A monitor state whose persisted cursor matches the in-memory one. -/
def mon_state_105 : MonitorState :=
  { last_change := 105, queue := [], processing := [], store := Option.some 105 }

/-- A stale delta: its change number does not exceed the cursor of
`mon_state_105`. -/
def stale_change : PICSChange :=
  { change_number := 100, app_changes := [730, 570], package_changes := [] }

/-- A short trace: one fresh delta, then a restart with a successful
read. -/
def trace_events : List MonitorEvent :=
  [MonitorEvent.iteration
      (.ok (Option.some { change_number := 200, app_changes := [730], package_changes := [] }))
      true true,
   MonitorEvent.restart true]

/-- A trace that regresses the persisted cursor: a restart whose store
read fails (so the monitor resumes from cursor 0), then an iteration
delivering change number 50 whose cursor write succeeds. -/
def regress_events : List MonitorEvent :=
  [MonitorEvent.restart false,
   MonitorEvent.iteration
      (.ok (Option.some { change_number := 50, app_changes := [730], package_changes := [] }))
      true true]

end PICS

namespace PICS

/-! ## Shared helper lemmas -/

theorem except_bind_ok {α β ε : Type} (a : α) (f : α → Except ε β) :
    (Except.ok a >>= f) = f a := rfl

/-! ## C10 -/

/-- C10: `get_last_change_number` returns 0, rather than raising, whenever
the `pics_sync_state` singleton row is absent or the store read fails; the
change monitor then starts tailing from change number 0. -/
theorem get_last_change_number_defaults_zero
    (read : Except Unit (Option (Option Nat))) (mq bs : Nat) (st : MonitorState)
    (h : read = .error () ∨ read = .ok Option.none) :
    get_last_change_number read = 0
    ∧ (monitor_event_step mq bs st (.restart false)).last_change = 0
    ∧ (st.store = Option.none →
        (monitor_event_step mq bs st (.restart true)).last_change = 0) := by
  refine ⟨?_, ?_, ?_⟩
  · rcases h with h | h <;> simp [h, get_last_change_number]
  · simp [monitor_event_step, store_read, get_last_change_number]
  · intro hs
    simp [monitor_event_step, store_read, hs, get_last_change_number]

theorem get_last_change_number_defaults_zero_witness :
    get_last_change_number (.error ()) = 0
    ∧ (monitor_event_step 10 5 mon_state_105 (.restart false)).last_change = 0 :=
  ⟨(get_last_change_number_defaults_zero (.error ()) 10 5 mon_state_105 (Or.inl rfl)).1,
   (get_last_change_number_defaults_zero (.error ()) 10 5 mon_state_105 (Or.inl rfl)).2.1⟩

/-! ## C4 -/

/-- C4 fails as stated: on a disconnected session `get_changes_since`
raises `RuntimeError` instead of returning the delta or `None`. -/
theorem get_changes_since_raises_when_disconnected :
    get_changes_since false
        (.ok (Option.some { current_change_number := 105, app_changes := [{ appid := 730 }] }))
      = .error (.runtimeError "Not connected to Steam") := rfl

/-- C4 (amended): when the session is connected `get_changes_since` never
throws: a response is repacked into the delta, a `None` response and any
upstream error both give `None`; a disconnected session instead raises
`RuntimeError`. -/
theorem get_changes_since_spec (upstream : Except Unit (Option ChangesResponse)) :
    (get_changes_since true upstream).isOk = true
    ∧ (∀ r, upstream = .ok (Option.some r) →
        get_changes_since true upstream
          = .ok (Option.some
              { change_number := r.current_change_number,
                app_changes := r.app_changes.map (fun c => c.appid),
                package_changes := [] }))
    ∧ (upstream = .error () → get_changes_since true upstream = .ok Option.none)
    ∧ (upstream = .ok Option.none → get_changes_since true upstream = .ok Option.none) := by
  refine ⟨?_, ?_, ?_, ?_⟩
  · rcases upstream with u | o
    · rfl
    · rcases o with _ | r <;> rfl
  · intro r h; rw [h]; rfl
  · intro h; rw [h]; rfl
  · intro h; rw [h]; rfl

theorem get_changes_since_spec_witness :
    get_changes_since true
        (.ok (Option.some
          { current_change_number := 105,
            app_changes := [{ appid := 730 }, { appid := 570 }] }))
      = .ok (Option.some { change_number := 105, app_changes := [730, 570], package_changes := [] })
    ∧ get_changes_since true (.error ()) = .ok Option.none :=
  ⟨(get_changes_since_spec _).2.1 _ rfl, (get_changes_since_spec _).2.2.1 rfl⟩

/-! ## C7 -/

/-- C7 fails as stated: an upstream steam-deck category of 7, outside
0..3, is preserved verbatim by the extractor instead of being coerced
to 0. -/
theorem steam_deck_category_not_coerced :
    (extract 730 deck_raw_7).map (fun e => e.steam_deck.map (fun d => d.category))
        = .ok (Option.some 7)
    ∧ ((7 : Int) < 0 ∨ 3 < (7 : Int)) := ⟨rfl, by omega⟩

/-- C7 (amended): the extractor maps the category to 0 exactly when the
upstream value is missing, unparsable as an integer, or 0; any other
integer, in range or not, is preserved verbatim; the coercion of
out-of-range values to the unknown label happens in the persister map
used by `_upsert_steam_deck`. -/
theorem steam_deck_category_spec (entries : List (String × Value)) (n : Int) :
    (entries.isEmpty = false →
      safe_int ((Value.lookup entries "category").getD Value.none) = Option.none →
      (extract_steam_deck (Value.dict entries)).map (fun d => d.category) = Option.some 0)
    ∧ (entries.isEmpty = false →
      safe_int ((Value.lookup entries "category").getD Value.none) = Option.some n →
      (extract_steam_deck (Value.dict entries)).map (fun d => d.category)
        = Option.some (if n == 0 then 0 else n))
    ∧ (n < 0 ∨ 3 < n → steam_deck_category_map n = "unknown") := by
  refine ⟨?_, ?_, ?_⟩
  · intro he hcat
    simp [extract_steam_deck, he, hcat]
  · intro he hcat
    simp [extract_steam_deck, he, hcat]
  · intro h
    simp only [steam_deck_category_map, beq_iff_eq]
    split_ifs with h1 h2 h3 h4 <;> first | rfl | omega

theorem steam_deck_category_spec_witness :
    (extract_steam_deck (Value.dict [("category", Value.str "x")])).map (fun d => d.category)
      = Option.some 0
    ∧ (extract_steam_deck (Value.dict [("category", Value.int 2)])).map (fun d => d.category)
      = Option.some 2
    ∧ steam_deck_category_map 7 = "unknown" :=
  ⟨(steam_deck_category_spec [("category", Value.str "x")] 0).1 rfl rfl,
   (steam_deck_category_spec [("category", Value.int 2)] 2).2.1 rfl rfl,
   (steam_deck_category_spec [] 7).2.2 (by omega)⟩

/-! ## C3 counterexample -/

/-- C3 fails as stated: a raw mapping whose `appinfo` envelope is not
itself a mapping makes the extractor raise `AttributeError` at the
unguarded `appinfo.get("extended", {})`. -/
theorem extract_raises_on_nondict_appinfo :
    extract 730 (Value.dict [("appinfo", Value.int 5)]) = .error .attributeError := rfl

/-! ## C6 -/

theorem foldPush_cons (m : Nat) (q : List Nat) (a : Nat) (rest : List Nat) :
    foldPush m q (a :: rest) = foldPush m (if q.length < m then q ++ [a] else q) rest := rfl

theorem foldPush_eq (m : Nat) :
    ∀ (apps queue : List Nat), queue.length ≤ m →
      foldPush m queue apps = queue ++ apps.take (m - queue.length) := by
  intro apps
  induction apps with
  | nil => intro q h; simp [foldPush]
  | cons a rest ih =>
    intro q h
    rw [foldPush_cons]
    by_cases hlt : q.length < m
    · rw [if_pos hlt, ih (q ++ [a]) (by simp; omega)]
      have hms : m - q.length = (m - (q.length + 1)) + 1 := by omega
      simp [hms, List.take_succ_cons]
    · rw [if_neg hlt]
      have hq : m - q.length = 0 := by omega
      rw [ih q h, hq]
      simp [hq]

/-- C6: the queue never exceeds `max_queue_size`; an appid in the
`processing` set is skipped at enqueue time; on overflow the newest
arrivals are dropped (the first free slots are filled, the tail of the
arrivals is lost), both for fresh changes and for a re-enqueued failed
batch. -/
theorem queue_bound_dedup_drop_newest (max_queue_size : Nat)
    (processing queue app_changes batch : List Nat)
    (h : queue.length ≤ max_queue_size) :
    enqueueChanges max_queue_size processing queue app_changes
      = queue ++ (app_changes.filter (fun a => !processing.contains a)).take
          (max_queue_size - queue.length)
    ∧ requeueBatch max_queue_size queue batch
      = queue ++ batch.take (max_queue_size - queue.length)
    ∧ (enqueueChanges max_queue_size processing queue app_changes).length ≤ max_queue_size
    ∧ (requeueBatch max_queue_size queue batch).length ≤ max_queue_size := by
  have h1 := foldPush_eq max_queue_size (app_changes.filter (fun a => !processing.contains a))
    queue h
  have h2 := foldPush_eq max_queue_size batch queue h
  refine ⟨h1, h2, ?_, ?_⟩
  · rw [enqueueChanges, h1]
    simp [List.length_take]
    omega
  · rw [requeueBatch, h2]
    simp [List.length_take]
    omega

theorem queue_bound_dedup_drop_newest_witness :
    enqueueChanges 3 [20] [] [10, 20, 30, 40, 50] = [10, 30, 40]
    ∧ requeueBatch 3 [99] [1, 2, 3] = [99, 1, 2]
    ∧ (enqueueChanges 3 [20] [] [10, 20, 30, 40, 50]).length ≤ 3 :=
  ⟨(queue_bound_dedup_drop_newest 3 [20] [] [10, 20, 30, 40, 50] [1, 2, 3] (by simp)).1,
   (queue_bound_dedup_drop_newest 3 [20] [99] [10, 20, 30, 40, 50] [1, 2, 3] (by simp)).2.1,
   (queue_bound_dedup_drop_newest 3 [20] [] [10, 20, 30, 40, 50] [1, 2, 3] (by simp)).2.2.1⟩

end PICS

namespace PICS

/-! ## C2 -/

/-- C2: the `name` column is included exactly when the extracted name is
truthy; `release_date` exactly when the extractor produced a
`steam_release_date` and the app lacks a storefront date; `is_free` and
`is_released` exactly when the app lacks a storefront sync; hence under
storefront authority the stored values of those columns survive the upsert
unchanged. -/
theorem build_app_record_authority (now : Nat) (app : ExtractedPICSData)
    (hdate hsync : Bool) (rec : AppRecord)
    (h : build_app_record now app hdate hsync = Option.some rec) :
    (rec.name.isSome ↔ app.name.truthy = true)
    ∧ (rec.release_date.isSome ↔ (app.steam_release_date.isSome = true ∧ hdate = false))
    ∧ (rec.is_free.isSome ↔ hsync = false)
    ∧ (rec.is_released.isSome ↔ hsync = false)
    ∧ (hdate = true → ∀ row, (applyRecord row rec).release_date = row.release_date)
    ∧ (hsync = true → ∀ row,
        (applyRecord row rec).is_free = row.is_free
        ∧ (applyRecord row rec).is_released = row.is_released) := by
  unfold build_app_record at h
  cases hbt : build_type app with
  | error e => rw [hbt] at h; exact absurd h (by simp)
  | ok t =>
    rw [hbt] at h
    rw [Option.some.injEq] at h
    subst h
    refine ⟨?_, ?_, ?_, ?_, ?_, ?_⟩
    · by_cases hn : app.name.truthy <;> simp [hn]
    · cases hdate <;> cases hsrd : app.steam_release_date <;> simp [hsrd]
    · cases hsync <;> simp
    · cases hsync <;> simp
    · intro hd row
      subst hd
      simp [applyRecord]
    · intro hs row
      subst hs
      simp [applyRecord]

theorem build_app_record_authority_witness :
    build_app_record 0 { appid := 730 } true true = Option.some sample_rec
    ∧ (applyRecord sample_row sample_rec).release_date = sample_row.release_date
    ∧ (applyRecord sample_row sample_rec).is_free = sample_row.is_free
    ∧ (applyRecord sample_row sample_rec).is_released = sample_row.is_released :=
  ⟨rfl,
   (build_app_record_authority 0 { appid := 730 } true true sample_rec rfl).2.2.2.2.1
     rfl sample_row,
   ((build_app_record_authority 0 { appid := 730 } true true sample_rec rfl).2.2.2.2.2
     rfl sample_row).1,
   ((build_app_record_authority 0 { appid := 730 } true true sample_rec rfl).2.2.2.2.2
     rfl sample_row).2⟩

/-! ## C1 -/

theorem pure_eq_ok {ε α : Type} (a : α) : (pure a : Except ε α) = .ok a := rfl

theorem upsert_steam_deck_ok (env : DbEnv) (appid : Nat) (deck : SteamDeckCompatibility) :
    upsert_steam_deck env appid deck = .ok () := by
  unfold upsert_steam_deck
  split <;> rfl

theorem sync_categories_ok (env : DbEnv) (appid : Nat) (categories : List (Int × Bool)) :
    sync_categories env appid categories = .ok () := by
  unfold sync_categories
  split <;> rfl

theorem sync_genres_ok (env : DbEnv) (appid : Nat) (genres : List Int) (pg : Option Int) :
    sync_genres env appid genres pg = .ok () := by
  unfold sync_genres
  split <;> rfl

theorem sync_store_tags_ok (env : DbEnv) (appid : Nat) (tag_ids : List Int) :
    sync_store_tags env appid tag_ids = .ok () := by
  unfold sync_store_tags
  split <;> rfl

theorem upsert_franchise_link_ok (env : DbEnv) (appid : Nat) (fname : Value) :
    upsert_franchise_link env appid fname = .ok () := by
  unfold upsert_franchise_link
  split <;> rfl

theorem franchise_loop_ok (env : DbEnv) (appid : Nat) :
    ∀ fs : List Value, franchise_loop env appid fs = .ok ()
  | [] => rfl
  | f :: rest => by
    rw [franchise_loop, upsert_franchise_link_ok, except_bind_ok]
    exact franchise_loop_ok env appid rest

theorem sync_dlc_relationships_ok (env : DbEnv) (appid : Nat) (dlc : List Int) :
    sync_dlc_relationships env appid dlc = .ok () := by
  unfold sync_dlc_relationships
  split
  · rfl
  · split <;> rfl

/-- Every relation sub-step swallows its own store exception, so the
per-app body of `_sync_relationships` always returns normally. -/
theorem sync_app_relationships_ok (env : DbEnv) (app : ExtractedPICSData) :
    sync_app_relationships env app = .ok () := by
  unfold sync_app_relationships
  cases app.steam_deck <;>
    simp [upsert_steam_deck_ok, sync_categories_ok, sync_genres_ok, sync_store_tags_ok,
      franchise_loop_ok, sync_dlc_relationships_ok, except_bind_ok, pure_eq_ok]

theorem sync_relationships_step_eq (env : DbEnv) (succ processed : List Nat)
    (app : ExtractedPICSData) :
    sync_relationships_step env succ processed app
      = if succ.contains app.appid then processed ++ [app.appid] else processed := by
  unfold sync_relationships_step
  by_cases hc : succ.contains app.appid <;> simp [hc, sync_app_relationships_ok]

theorem sync_relationships_foldl (env : DbEnv) (succ : List Nat) :
    ∀ (sapps : List ExtractedPICSData) (processed : List Nat),
      sapps.foldl (sync_relationships_step env succ) processed
        = processed ++ (sapps.filter (fun a => succ.contains a.appid)).map (fun a => a.appid) := by
  intro sapps
  induction sapps with
  | nil => intro processed; simp
  | cons app rest ih =>
    intro processed
    rw [List.foldl_cons, sync_relationships_step_eq]
    by_cases hc : succ.contains app.appid
    · rw [List.filter_cons_of_pos (by simpa using hc), if_pos hc, ih (processed ++ [app.appid])]
      simp
    · rw [List.filter_cons_of_neg (by simpa using hc), if_neg hc]
      exact ih processed

/-- The characterization of `_sync_relationships`: an app in
`successful_appids` always lands in `processed_appids`, whatever store
failures its sub-steps hit. -/
theorem sync_relationships_eq (env : DbEnv) (sapps : List ExtractedPICSData)
    (succ : List Nat) :
    sync_relationships env sapps succ
      = (sapps.filter (fun a => succ.contains a.appid)).map (fun a => a.appid) := by
  unfold sync_relationships
  rw [sync_relationships_foldl]
  simp

/-- C1 fails as stated: the category sub-step store calls raise for app
730, yet 730 still receives the `last_pics_sync` bump, because each
sub-step swallows its own exception before the outer per-app try can see
it. -/
theorem bump_despite_category_failure :
    cat_fail_env.categories_fails 730 = true
    ∧ (upsert_apps_batch cat_fail_env 0 [cat_fail_app]).bumped = [730] := ⟨rfl, rfl⟩

/-- C1 (amended): an appid receives the `last_pics_sync` bump in a call
only if its apps-row upsert chunk succeeded; failures inside the relation
sub-steps are swallowed by each sub-step and never withhold the bump. -/
theorem bump_requires_chunk_success_only (env : DbEnv) (now : Nat)
    (apps sapps : List ExtractedPICSData) (succ : List Nat) :
    (∀ a, a ∈ (upsert_apps_batch env now apps).bumped →
       a ∈ (upsert_apps_batch env now apps).successful_appids)
    ∧ sync_relationships env sapps succ
        = (sapps.filter (fun a => succ.contains a.appid)).map (fun a => a.appid) := by
  constructor
  · intro a
    unfold upsert_apps_batch
    split
    · intro ha; simp at ha
    · dsimp only
      split
      · intro ha; simp at ha
      · simp only [sync_relationships_eq]
        intro ha
        simp only [List.mem_map, List.mem_filter] at ha
        obtain ⟨x, ⟨hx1, hx2⟩, hx3⟩ := ha
        subst hx3
        simpa using hx2
  · exact sync_relationships_eq env sapps succ

theorem bump_requires_chunk_success_only_witness :
    730 ∈ (upsert_apps_batch cat_fail_env 0 [cat_fail_app]).bumped
    ∧ 730 ∈ (upsert_apps_batch cat_fail_env 0 [cat_fail_app]).successful_appids :=
  ⟨by decide,
   (bump_requires_chunk_success_only cat_fail_env 0 [cat_fail_app] [] []).1 730 (by decide)⟩

end PICS

namespace PICS

/-! ## C8 -/

theorem fetch_go_all_fail (env : Nat → AttemptEnv) (m : Nat)
    (h : ∀ k, k < m → ((env k).is_connected = true ∨ (env k).reconnect_ok = true)
        ∧ (env k).upstream = .error ()) :
    ∀ (fuel attempt : Nat) (delays : List Nat), fuel + attempt = m → attempt < m →
      fetch_go env m fuel attempt delays
        = .raised (delays ++ (List.range (m - 1 - attempt)).map (fun j => 2 ^ (attempt + j + 1))) := by
  intro fuel
  induction fuel with
  | zero => intro attempt delays hsum hlt; omega
  | succ fuel ih =>
    intro attempt delays hsum hlt
    obtain ⟨hconn, hup⟩ := h attempt hlt
    rw [fetch_go]
    have hcond : (!(env attempt).is_connected && !(env attempt).reconnect_ok) = false := by
      rcases hconn with hc | hc <;> simp [hc]
    rw [hcond]
    simp only [Bool.false_eq_true, if_false, hup]
    by_cases hlast : attempt < m - 1
    · rw [if_pos hlast, ih (attempt + 1) (delays ++ [2 ^ (attempt + 1)]) (by omega) (by omega)]
      have hrange : m - 1 - attempt = (m - 1 - (attempt + 1)) + 1 := by omega
      rw [hrange, List.range_succ_eq_map, List.map_cons, List.map_map]
      have hfun : ((fun j => 2 ^ (attempt + j + 1)) ∘ Nat.succ)
          = (fun j => 2 ^ (attempt + 1 + j + 1)) := by
        funext j
        simp only [Function.comp]
        congr 1
        omega
      rw [hfun]
      simp
    · rw [if_neg hlast]
      have hz : m - 1 - attempt = 0 := by omega
      rw [hz]
      simp

/-- C8: before each attempt a disconnected session is reconnected and a
reconnect failure fails the whole call; upstream errors are retried with
doubling backoff starting at 2 seconds; after `max_retries` consecutive
failures the error is surfaced; an empty upstream response yields an empty
map, not an error. -/
theorem fetch_apps_batch_spec (env : Nat → AttemptEnv) (m : Nat) (hm : 1 ≤ m) :
    ((env 0).is_connected = false → (env 0).reconnect_ok = false →
       fetch_apps_batch env m = .reconnectFailed [])
    ∧ (((env 0).is_connected = true ∨ (env 0).reconnect_ok = true) →
       (env 0).upstream = .ok Option.none → fetch_apps_batch env m = .okMap [] [])
    ∧ ((∀ k, k < m → ((env k).is_connected = true ∨ (env k).reconnect_ok = true)
          ∧ (env k).upstream = .error ()) →
       fetch_apps_batch env m = .raised ((List.range (m - 1)).map (fun k => 2 ^ (k + 1)))) := by
  obtain ⟨f, rfl⟩ : ∃ f, m = f + 1 := ⟨m - 1, by omega⟩
  refine ⟨?_, ?_, ?_⟩
  · intro hc hr
    show fetch_go env (f + 1) (f + 1) 0 [] = .reconnectFailed []
    rw [fetch_go]
    simp [hc, hr]
  · intro hconn hup
    show fetch_go env (f + 1) (f + 1) 0 [] = .okMap [] []
    rw [fetch_go]
    have hcond : (!(env 0).is_connected && !(env 0).reconnect_ok) = false := by
      rcases hconn with hc | hc <;> simp [hc]
    rw [hcond]
    simp [hup]
  · intro hall
    have := fetch_go_all_fail env (f + 1) hall (f + 1) 0 [] (by omega) (by omega)
    simpa using this

theorem fetch_apps_batch_spec_witness :
    fetch_apps_batch envA 3 = .reconnectFailed []
    ∧ fetch_apps_batch envB 3 = .okMap [] []
    ∧ fetch_apps_batch envC 3 = .raised [2, 4] :=
  ⟨(fetch_apps_batch_spec envA 3 (by omega)).1 rfl rfl,
   (fetch_apps_batch_spec envB 3 (by omega)).2.1 (Or.inl rfl) rfl,
   (fetch_apps_batch_spec envC 3 (by omega)).2.2 (fun k hk => ⟨Or.inl rfl, rfl⟩)⟩

end PICS

namespace PICS

/-! ## C9 -/

theorem reconnect_loop_all_false (m : Nat) (hm : m = 0 ∨ 10 ≤ m) :
    ∀ (n attempt made : Nat) (delays : List Nat), attempt ≤ 9 →
      reconnect_loop m attempt made delays (List.replicate n false)
        = .running (made + n)
            (delays ++ (List.range n).map (fun i => min (5 * 2 ^ ((attempt + i) % 10)) 300)) := by
  intro n
  induction n with
  | zero =>
    intro attempt made delays ha
    have hguard : (m == 0 || attempt < m) = true := by
      rcases hm with hm | hm <;> simp [hm] <;> omega
    simp [List.replicate, reconnect_loop, hguard]
  | succ n ih =>
    intro attempt made delays ha
    rw [List.replicate_succ, reconnect_loop]
    have hguard : (m == 0 || attempt < m) = true := by
      rcases hm with hm | hm <;> simp [hm] <;> omega
    rw [if_pos hguard]
    simp only [Bool.false_eq_true, if_false]
    have ha2 : (if (attempt + 1) % 10 == 0 then 0 else attempt + 1) ≤ 9 := by
      by_cases h10 : (attempt + 1) % 10 = 0 <;> simp [h10] <;> omega
    rw [ih _ (made + 1) _ ha2]
    have hmod : ∀ i, ((if (attempt + 1) % 10 == 0 then 0 else attempt + 1) + i) % 10
        = (attempt + (i + 1)) % 10 := by
      intro i
      by_cases h10 : (attempt + 1) % 10 = 0 <;> simp [h10] <;> omega
    have hmade : made + 1 + n = made + (n + 1) := by omega
    rw [hmade, List.range_succ_eq_map, List.map_cons, List.map_map]
    have h0 : attempt % 10 = attempt := Nat.mod_eq_of_lt (by omega)
    have hfun : ((fun i => min (5 * 2 ^ ((attempt + i) % 10)) 300) ∘ Nat.succ)
        = (fun i => min (5 * 2 ^ (((if (attempt + 1) % 10 == 0 then 0 else attempt + 1) + i) % 10)) 300) := by
      funext i
      simp only [Function.comp, hmod i]
    rw [hfun]
    simp [h0]

theorem reconnect_loop_bounded (m : Nat) (h1 : 1 ≤ m) (h9 : m ≤ 9) :
    ∀ (k attempt made : Nat) (delays : List Nat) (n : Nat),
      attempt + k = m → k ≤ n →
      reconnect_loop m attempt made delays (List.replicate n false)
        = .gaveUp (made + k)
            (delays ++ (List.range k).map (fun i => min (5 * 2 ^ (attempt + i)) 300)) := by
  intro k
  induction k with
  | zero =>
    intro attempt made delays n hsum hkn
    have hguard : (m == 0 || attempt < m) = false := by
      simp
      omega
    cases n with
    | zero => rw [List.replicate]; rw [reconnect_loop, hguard]; simp
    | succ n => rw [List.replicate_succ, reconnect_loop, hguard]; simp
  | succ k ih =>
    intro attempt made delays n hsum hkn
    obtain ⟨n1, rfl⟩ : ∃ n1, n = n1 + 1 := ⟨n - 1, by omega⟩
    rw [List.replicate_succ, reconnect_loop]
    have hguard : (m == 0 || attempt < m) = true := by
      simp
      omega
    rw [if_pos hguard]
    simp only [Bool.false_eq_true, if_false]
    have h10 : ((attempt + 1) % 10 == 0) = false := by
      simp
      omega
    rw [h10]
    simp only [Bool.false_eq_true, if_false]
    rw [ih (attempt + 1) (made + 1) _ n1 (by omega) (by omega)]
    have hmade : made + 1 + k = made + (k + 1) := by omega
    rw [hmade, List.range_succ_eq_map, List.map_cons, List.map_map]
    have hfun : ((fun i => min (5 * 2 ^ (attempt + i)) 300) ∘ Nat.succ)
        = (fun i => min (5 * 2 ^ (attempt + 1 + i)) 300) := by
      funext i
      simp only [Function.comp]
      have hexp : attempt + Nat.succ i = attempt + 1 + i := by omega
      rw [hexp]
    rw [hfun]
    simp

theorem reconnect_loop_finds_true :
    ∀ (outcomes : List Bool) (attempt made : Nat) (delays : List Nat),
      true ∈ outcomes →
      ∃ j d, reconnect_loop 0 attempt made delays outcomes = .connected j d := by
  intro outcomes
  induction outcomes with
  | nil => intro _ _ _ h; simp at h
  | cons o rest ih =>
    intro attempt made delays h
    rw [reconnect_loop]
    simp only [beq_self_eq_true, Bool.true_or, if_true]
    cases o
    · have hrest : true ∈ rest := by simpa using h
      exact ih _ _ _ hrest
    · exact ⟨made + 1, _, rfl⟩

/-- C9 fails as stated: with `maxAttempts = 10` and every connect failing,
the counter reset keeps the loop guard satisfied forever, so 20 attempts
are observed without the call terminating with false. -/
theorem reconnect_limit_defeated_by_reset :
    reconnect 10 (List.replicate 20 false)
      = .running 20
          [5, 10, 20, 40, 80, 160, 300, 300, 300, 300,
           5, 10, 20, 40, 80, 160, 300, 300, 300, 300] := by decide

/-- C9 (amended): with `maxAttempts = 0` the loop retries without limit
until a connect succeeds, waiting `min(5 * 2 ** (c - 1), 300)` seconds
before the attempt with counter value `c` and resetting the counter after
every 10 consecutive failures; with `0 < maxAttempts < 10` it makes at
most `maxAttempts` attempts and returns false when all fail; with
`maxAttempts >= 10` the reset defeats the limit and the loop never
terminates with false. -/
theorem reconnect_spec (m n : Nat) (outcomes : List Bool) :
    (m = 0 ∨ 10 ≤ m →
       reconnect m (List.replicate n false)
         = .running n ((List.range n).map (fun i => min (5 * 2 ^ (i % 10)) 300)))
    ∧ (m = 0 → true ∈ outcomes → ∃ j d, reconnect m outcomes = .connected j d)
    ∧ (1 ≤ m → m ≤ 9 → m ≤ n →
       reconnect m (List.replicate n false)
         = .gaveUp m ((List.range m).map (fun i => min (5 * 2 ^ i) 300))) := by
  refine ⟨?_, ?_, ?_⟩
  · intro hm
    have := reconnect_loop_all_false m hm n 0 0 [] (by omega)
    simpa [reconnect] using this
  · intro hm htrue
    subst hm
    exact reconnect_loop_finds_true outcomes 0 0 [] htrue
  · intro h1 h9 hn
    have := reconnect_loop_bounded m h1 h9 m 0 0 [] n (by omega) hn
    simpa [reconnect] using this

theorem reconnect_spec_witness :
    reconnect 0 (List.replicate 2 false) = .running 2 [5, 10]
    ∧ (∃ j d, reconnect 0 [false, true] = .connected j d)
    ∧ reconnect 3 (List.replicate 5 false) = .gaveUp 3 [5, 10, 20] :=
  ⟨(reconnect_spec 0 2 []).1 (Or.inl rfl),
   (reconnect_spec 0 0 [false, true]).2.1 rfl (by simp),
   (reconnect_spec 3 5 []).2.2 (by omega) (by omega) (by omega)⟩

end PICS

namespace PICS

/-! ## C5 -/

theorem process_queue_frame (mq bs : Nat) (ok : Bool) (st : MonitorState) :
    (process_queue mq bs ok st).last_change = st.last_change
    ∧ (process_queue mq bs ok st).store = st.store := by
  unfold process_queue
  split
  · exact ⟨rfl, rfl⟩
  · dsimp only
    split
    · exact ⟨rfl, rfl⟩
    · split
      · exact ⟨rfl, rfl⟩
      · exact ⟨rfl, rfl⟩

theorem change_phase_stale (mq : Nat) (c : PICSChange) (write_ok : Bool) (st : MonitorState)
    (hstale : c.change_number ≤ st.last_change) :
    change_phase mq (Option.some c) write_ok st = st := by
  simp only [change_phase]
  rw [if_neg (by omega)]

theorem change_phase_inv (mq : Nat) (delta : Option PICSChange) (write_ok : Bool)
    (st : MonitorState) (hinv : MonitorInv st) :
    MonitorInv (change_phase mq delta write_ok st)
    ∧ st.store.getD 0 ≤ (change_phase mq delta write_ok st).store.getD 0
    ∧ st.last_change ≤ (change_phase mq delta write_ok st).last_change := by
  cases delta with
  | none => exact ⟨hinv, le_refl _, le_refl _⟩
  | some c =>
    simp only [change_phase]
    split
    · rename_i hc
      cases write_ok with
      | true =>
        refine ⟨?_, ?_, ?_⟩
        · intro v hv
          simp at hv
          simp
          omega
        · rcases hs : st.store with _ | v
          · simp
          · have := hinv v hs
            simp
            omega
        · simp
          omega
      | false =>
        refine ⟨?_, ?_, ?_⟩
        · intro v hv
          simp at hv
          have := hinv v hv
          simp
          omega
        · simp
        · simp
          omega
    · exact ⟨hinv, le_refl _, le_refl _⟩

theorem monitor_step_inv (mq bs : Nat) (st : MonitorState) (e : MonitorEvent)
    (hok : event_reads_ok e = true) (hinv : MonitorInv st) :
    MonitorInv (monitor_event_step mq bs st e)
    ∧ st.store.getD 0 ≤ (monitor_event_step mq bs st e).store.getD 0 := by
  cases e with
  | restart read_ok =>
    have hro : read_ok = true := hok
    subst hro
    constructor
    · intro v hv
      simp only [monitor_event_step] at hv ⊢
      rw [hv]
      simp [store_read, get_last_change_number]
    · simp [monitor_event_step]
  | iteration fetch write_ok process_ok =>
    simp only [monitor_event_step, monitor_iteration]
    cases fetch with
    | error e => exact ⟨hinv, le_refl _⟩
    | ok delta =>
      dsimp only
      have hcp := change_phase_inv mq delta write_ok st hinv
      have hpq := process_queue_frame mq bs process_ok (change_phase mq delta write_ok st)
      constructor
      · intro v hv
        rw [hpq.2] at hv
        have := hcp.1 v hv
        rw [hpq.1]
        exact this
      · rw [hpq.2]
        exact hcp.2.1

theorem monitor_run_inv (mq bs : Nat) :
    ∀ (events : List MonitorEvent) (st : MonitorState),
      events.all event_reads_ok = true → MonitorInv st →
      MonitorInv (monitor_run mq bs st events)
      ∧ st.store.getD 0 ≤ (monitor_run mq bs st events).store.getD 0 := by
  intro events
  induction events with
  | nil => intro st hall hinv; exact ⟨hinv, le_refl _⟩
  | cons e rest ih =>
    intro st hall hinv
    simp only [List.all_cons, Bool.and_eq_true] at hall
    have hstep := monitor_step_inv mq bs st e hall.1 hinv
    have hrest := ih (monitor_event_step mq bs st e) hall.2 hstep.1
    exact ⟨hrest.1, le_trans hstep.2 hrest.2⟩

/-- C5 fails as stated: across a restart whose store read fails, the
monitor resumes from cursor 0 (the path C10 describes), and a later delta
with change number 50 passes the freshness guard and rewrites the
persisted cursor from 105 down to 50 — `set_last_change_number` has no
guard, so the persisted `last_change_number` is not monotone across such
restarts. -/
theorem persisted_cursor_regresses_after_failed_read :
    mon_state_105.store = Option.some 105
    ∧ (monitor_run 10 5 mon_state_105 regress_events).store = Option.some 50
    ∧ 50 < 105 := ⟨rfl, rfl, by omega⟩

/-- C5 (amended): a delta whose change number does not exceed the cursor
queues no appid and rewrites neither the in-memory nor the persisted
cursor; and along any trace of iterations and restarts whose restarts
resume from the persisted cursor (a restart with a failed store read
instead resumes from 0, after which the persisted cursor can be rewritten
to a smaller value), the persisted `last_change_number` is monotone
non-decreasing. -/
theorem change_monitor_stale_noop_and_monotone (mq bs : Nat) (c : PICSChange)
    (write_ok : Bool) (st : MonitorState) (events : List MonitorEvent)
    (hstale : c.change_number ≤ st.last_change)
    (hall : events.all event_reads_ok = true) (hinv : MonitorInv st) :
    change_phase mq (Option.some c) write_ok st = st
    ∧ MonitorInv (monitor_run mq bs st events)
    ∧ st.store.getD 0 ≤ (monitor_run mq bs st events).store.getD 0 := by
  have hrun := monitor_run_inv mq bs events st hall hinv
  exact ⟨change_phase_stale mq c write_ok st hstale, hrun.1, hrun.2⟩

theorem change_monitor_stale_noop_and_monotone_witness :
    change_phase 10 (Option.some stale_change) true mon_state_105 = mon_state_105
    ∧ mon_state_105.store.getD 0
        ≤ (monitor_run 10 5 mon_state_105 trace_events).store.getD 0 :=
  ⟨(change_monitor_stale_noop_and_monotone 10 5 stale_change true mon_state_105 trace_events
      (by decide) rfl (fun v hv => by simp [mon_state_105] at hv ⊢; omega)).1,
   (change_monitor_stale_noop_and_monotone 10 5 stale_change true mon_state_105 trace_events
      (by decide) rfl (fun v hv => by simp [mon_state_105] at hv ⊢; omega)).2.2⟩

end PICS

namespace PICS

/-! ## C3 (amended): totality on well-shaped inputs -/

theorem isOk_ok {ε α : Type} (a : α) : (Except.ok a : Except ε α).isOk = true := rfl

theorem isOk_bind {ε α β : Type} {x : Except ε α} {f : α → Except ε β}
    (hx : ∃ a, x = .ok a) (hf : ∀ a, (f a).isOk = true) : (x >>= f).isOk = true := by
  obtain ⟨a, rfl⟩ := hx
  exact hf a

theorem isOk_bind_eq {ε α β : Type} {x : Except ε α} {f : α → Except ε β}
    (a : α) (hx : x = .ok a) (hf : (f a).isOk = true) : (x >>= f).isOk = true := by
  subst hx
  exact hf

theorem isDict_exists {v : Value} (h : v.isDict = true) : ∃ es, v = Value.dict es := by
  cases v <;> simp [Value.isDict] at h ⊢

theorem dget_dict (es : List (String × Value)) (key : String) (dflt : Value) :
    dget (Value.dict es) key dflt = .ok (Value.getD (Value.dict es) key dflt) := rfl

theorem unwrapped_dict (es : List (String × Value)) :
    unwrapped (Value.dict es) = .ok (unwrap_value (Value.dict es)) := by
  unfold unwrapped pyIn
  rw [except_bind_ok]
  by_cases hk : Value.hasKey es "appinfo" <;>
    simp [hk, dget, unwrap_value, Value.getD, pure_eq_ok]

theorem por_get_dict (a : Value) (es : List (String × Value)) (key : String) :
    por_get a (Value.dict es) key
      = .ok (if a.truthy then a else Value.getD (Value.dict es) key Value.none) := by
  unfold por_get
  by_cases ht : a.truthy <;> simp [ht, dget_dict, pure_eq_ok]

theorem parse_platforms_ok (v : Value) (h : splittable v = true) :
    ∃ l, parse_platforms v = .ok l := by
  rcases v with _ | n | s | es
  · exact ⟨[], rfl⟩
  · unfold splittable Value.truthy Value.isStr at h
    simp at h
    subst h
    exact ⟨[], rfl⟩
  · by_cases ht : (Value.str s).truthy <;> simp [parse_platforms, ht]
  · unfold splittable Value.truthy Value.isStr at h
    simp at h
    simp [parse_platforms, Value.truthy, h]

theorem parse_dlc_list_ok (v : Value) (h : splittable v = true) :
    ∃ l, parse_dlc_list v = .ok l := by
  rcases v with _ | n | s | es
  · exact ⟨[], rfl⟩
  · unfold splittable Value.truthy Value.isStr at h
    simp at h
    subst h
    exact ⟨[], rfl⟩
  · by_cases ht : (Value.str s).truthy <;> simp [parse_dlc_list, ht]
  · unfold splittable Value.truthy Value.isStr at h
    simp at h
    simp [parse_dlc_list, Value.truthy, h]

theorem workshop_flag_ok (config : Value) (ces : List (String × Value))
    (hcfg : (config.isDict || config.isStr) = true) :
    ∃ b, workshop_flag config (Value.dict ces) = .ok b := by
  rcases config with _ | n | s | es
  · simp [Value.isDict, Value.isStr] at hcfg
  · simp [Value.isDict, Value.isStr] at hcfg
  · by_cases hin : py_in_str "workshop" s <;>
      simp [workshop_flag, pyIn, hin, dget_dict, except_bind_ok, pure_eq_ok]
  · by_cases hin : Value.hasKey es "workshop" <;>
      simp [workshop_flag, pyIn, hin, dget_dict, except_bind_ok, pure_eq_ok]

theorem extract_fields_total (appid : Nat) (ces ees : List (String × Value))
    (config depots : Value)
    (hcfg : (config.isDict || config.isStr) = true)
    (hos : splittable (Value.getD (Value.dict ces) "oslist" (Value.str "")) = true)
    (hdlc : splittable (Value.getD (Value.dict ees) "listofdlc" (Value.str "")) = true) :
    (extract_fields appid (Value.dict ces) (Value.dict ees) config depots).isOk = true := by
  obtain ⟨ls, hls⟩ := parse_platforms_ok _ hos
  obtain ⟨ds, hds⟩ := parse_dlc_list_ok _ hdlc
  obtain ⟨b, hb⟩ := workshop_flag_ok config ces hcfg
  unfold extract_fields
  refine isOk_bind ⟨_, rfl⟩ ?_; intro name
  refine isOk_bind ⟨_, rfl⟩ ?_; intro ty
  refine isOk_bind ⟨_, rfl⟩ ?_; intro d1
  refine isOk_bind ⟨_, por_get_dict d1 ees "developer"⟩ ?_; intro developer
  refine isOk_bind ⟨_, rfl⟩ ?_; intro p1
  refine isOk_bind ⟨_, por_get_dict p1 ees "publisher"⟩ ?_; intro publisher
  refine isOk_bind ⟨_, rfl⟩ ?_; intro assoc
  refine isOk_bind ⟨_, rfl⟩ ?_; intro parent
  refine isOk_bind_eq _ rfl ?_
  refine isOk_bind ⟨ds, hds⟩ ?_; intro dlc
  refine isOk_bind ⟨_, rfl⟩ ?_; intro srd
  refine isOk_bind ⟨_, rfl⟩ ?_; intro ord
  refine isOk_bind ⟨_, rfl⟩ ?_; intro sam
  refine isOk_bind ⟨_, rfl⟩ ?_; intro rstate
  refine isOk_bind ⟨_, rfl⟩ ?_; intro rscore
  refine isOk_bind ⟨_, rfl⟩ ?_; intro rpct
  refine isOk_bind ⟨_, rfl⟩ ?_; intro mscore
  refine isOk_bind ⟨_, rfl⟩ ?_; intro murl
  refine isOk_bind ⟨_, rfl⟩ ?_; intro tags
  refine isOk_bind ⟨_, rfl⟩ ?_; intro genres_raw
  refine isOk_bind ⟨_, rfl⟩ ?_; intro pgenre
  refine isOk_bind ⟨_, rfl⟩ ?_; intro cats
  refine isOk_bind_eq _ rfl ?_
  refine isOk_bind ⟨ls, hls⟩ ?_; intro plats
  refine isOk_bind ⟨_, rfl⟩ ?_; intro ctrl
  refine isOk_bind ⟨_, rfl⟩ ?_; intro deck
  refine isOk_bind ⟨b, hb⟩ ?_; intro workshop
  refine isOk_bind ⟨_, rfl⟩ ?_; intro isfree
  refine isOk_bind ⟨_, rfl⟩ ?_; intro cdesc
  refine isOk_bind ⟨_, rfl⟩ ?_; intro langs
  refine isOk_bind ⟨_, rfl⟩ ?_; intro h1
  refine isOk_bind ⟨_, por_get_dict h1 ees "developer_url"⟩ ?_; intro homepage
  refine isOk_bind ⟨_, rfl⟩ ?_; intro state
  exact isOk_ok _

end PICS

namespace PICS

/-- C3 (amended): the extractor is total on well-shaped raw records (the
record and its unwrapped envelope are mappings, the common and extended
sub-records are mappings, config supports the `in` operator, and the two
comma-list fields are strings when truthy), and on an entirely empty
record every missing key maps to None or an empty collection; on other
inputs (for example a non-mapping appinfo envelope) the extractor
raises. -/
theorem extract_total_of_wellShaped (appid : Nat) (raw_data : Value)
    (h : wellShaped raw_data = true) :
    (extract appid raw_data).isOk = true
    ∧ extract appid (Value.dict []) = .ok { appid := appid } := by
  constructor
  · unfold wellShaped at h
    simp only [Bool.and_eq_true] at h
    obtain ⟨⟨⟨⟨⟨⟨h1, h2⟩, h3⟩, h4⟩, h5⟩, h6⟩, h7⟩ := h
    obtain ⟨res, rfl⟩ := isDict_exists h1
    obtain ⟨aes, hA⟩ := isDict_exists h2
    unfold common_of at h3 h6
    unfold extended_of at h4 h7
    unfold config_of at h5
    rw [hA] at h3 h4 h5 h6 h7
    simp only [Value.isDict] at h3 h6
    obtain ⟨ces, hC⟩ := isDict_exists h3
    obtain ⟨ees, hE⟩ := isDict_exists h4
    rw [hC] at h6
    rw [hE] at h7
    unfold extract
    refine isOk_bind_eq _ ((unwrapped_dict res).trans (by rw [hA])) ?_
    refine isOk_bind_eq _ (by rw [dget_dict, hE]) ?_
    refine isOk_bind_eq _ rfl ?_
    refine isOk_bind ⟨_, rfl⟩ ?_; intro depots
    simp only [Value.isDict, hC]
    exact extract_fields_total appid ces ees _ depots h5 h6 h7
  · rfl

theorem extract_total_of_wellShaped_witness :
    wellShaped (Value.dict [("common", Value.dict [("oslist", Value.str "windows,linux")])])
      = true
    ∧ (extract 730
        (Value.dict [("common", Value.dict [("oslist", Value.str "windows,linux")])])).isOk
      = true :=
  ⟨rfl,
   (extract_total_of_wellShaped 730
     (Value.dict [("common", Value.dict [("oslist", Value.str "windows,linux")])]) rfl).1⟩

end PICS
